import Mathlib

/-!
Verification of the RTWRH (Rooftop Rainwater Harvesting) calculator
(`src/main.py`) against its natural-language specification.

The script is a linear Streamlit program; its computational core is a
handful of closed-form arithmetic formulas plus a couple of list/table
lookups.  We embed those shallowly:

* rainfall rows (`RainfallRecord`) as a structure, the pandas dataframe as
  a `List RainfallRecord`; pandas boolean-mask filtering becomes
  `List.filter`, `.max()` becomes a fold, `.mean()` (which skips missing
  values) becomes a mean over the present values;
* the harvest, feasibility and cost arithmetic over `ℚ` (the Python code
  performs plain arithmetic with no rounding);
* the recharge-structure geometry over `ℝ` (it uses `math.pi`);
* dictionary lookups (`dict.get`) as `List.lookup` over association
  lists, with Python truthiness made explicit where the code relies on it.

Operations the source performs with no failure path are wrapped in
`Except CoreError` returning `.ok` on every input, so that claims about
error conditions can be stated and settled against the code.
-/

namespace RTWRH

/-- Error taxonomy named by the specification (§7). The source script has
no failure path in its computational core; this type exists so that the
spec's claimed failure modes can be stated against the code. -/
inductive CoreError where
  | invalidInput
  | notFound
deriving DecidableEq, Repr

/-! ## Data model

One row of `rainfall-in-india-1901-2015.csv` after `load_rainfall_data`:
a (whitespace-stripped) subdivision name, a year, the annual total and the
four seasonal sub-totals.  Seasonal cells may be missing (NaN in pandas);
we model a cell as `Option ℚ`. -/

/-- One row of the rainfall dataframe (`src/main.py` lines 12-17). -/
structure RainfallRecord where
  subdivision : String
  year : Int
  annual : ℚ
  janFeb : Option ℚ
  marMay : Option ℚ
  junSep : Option ℚ
  octDec : Option ℚ
deriving DecidableEq, Repr

/-- `city_data = df[df["SUBDIVISION"] == city]` (line 52): the rows of the
dataframe whose subdivision equals the chosen city.  Pandas boolean-mask
selection never raises; an absent identifier yields the empty selection. -/
def city_data (df : List RainfallRecord) (city : String) : List RainfallRecord :=
  df.filter (fun r => r.subdivision == city)

/-- The Region Selector as the spec describes its interface: returning
records or failing.  The source operation (line 52) has no failure path,
so every input maps to `.ok` of the selection. -/
def region_select (df : List RainfallRecord) (city : String) :
    Except CoreError (List RainfallRecord) :=
  .ok (city_data df city)

/-- `city_data["YEAR"].max()` (line 55): the maximum year among the
selected rows (`0` for an empty selection, which the script never
meaningfully uses: every downstream filter of an empty selection is
empty anyway). -/
def maxYear : List RainfallRecord → Int
  | [] => 0
  | r :: rs => rs.foldl (fun m x => max m x.year) r.year

/-- `recent_years = city_data[city_data["YEAR"] > city_data["YEAR"].max() - 10]`
(line 55). -/
def recent_years (cd : List RainfallRecord) : List RainfallRecord :=
  cd.filter (fun r => maxYear cd - 10 < r.year)

/-- Pandas `Series.mean()`: the arithmetic mean of the values that are
present; `none` (NaN) when there are no values. -/
def seriesMean (xs : List ℚ) : Option ℚ :=
  if xs.length = 0 then none else some (xs.sum / xs.length)

/-- `recent_years["ANNUAL"].mean()` (line 56). -/
def avg_annual_rainfall (cd : List RainfallRecord) : Option ℚ :=
  seriesMean ((recent_years cd).map (·.annual))

/-- `recent_years[season].mean()` for one seasonal column (lines 57-62):
pandas `mean` skips missing cells, so the mean is over the present values
only. -/
def avg_seasonal_rainfall (f : RainfallRecord → Option ℚ)
    (cd : List RainfallRecord) : Option ℚ :=
  seriesMean ((recent_years cd).filterMap f)

/-! ## Harvest Calculator (lines 87-90) -/

/-- `effective_rainfall = max(avg_annual_rainfall - first_flush, 0)` (line 87). -/
def effective_rainfall (rainfall first_flush : ℚ) : ℚ :=
  max (rainfall - first_flush) 0

/-- `potential = area * c * effective_rainfall / 1000` (line 88). -/
def potential (area c eff : ℚ) : ℚ :=
  area * c * eff / 1000

/-- `harvestable = potential * (efficiency / 100)` (line 89). -/
def harvestable (pot efficiency : ℚ) : ℚ :=
  pot * (efficiency / 100)

/-- `harvestable_litres = harvestable * 1000` (line 90). -/
def harvestable_litres (h : ℚ) : ℚ :=
  h * 1000

/-- The four outputs of lines 87-90 bundled as the spec's `HarvestResult`. -/
structure HarvestResult where
  effective : ℚ
  potentialVol : ℚ
  harvestableVol : ℚ
  litres : ℚ
deriving DecidableEq, Repr

/-- The Harvest Calculator as a single function of its five inputs, with
the failure-signalling interface the spec describes.  Lines 87-90 perform
no input validation of any kind, so every input — including a negative
area or a coefficient outside `(0,1]` — maps to `.ok` of the arithmetic
result.  (The presentation layer constrains `area ≥ 10`,
`c ∈ [0.1, 1.0]`, `efficiency ∈ [50, 100]` via widget bounds.) -/
def harvest_compute (rainfall area c first_flush efficiency : ℚ) :
    Except CoreError HarvestResult :=
  let e := effective_rainfall rainfall first_flush
  let p := potential area c e
  let h := harvestable p efficiency
  .ok ⟨e, p, h, harvestable_litres h⟩

/-! ## Feasibility check (line 93) -/

/-- `feasible = harvestable > 5` (line 93). -/
def feasible (h : ℚ) : Bool :=
  h > 5

/-! ## Cost Estimator (lines 33-34, 132-134) -/

/-- `cost_estimate_per_m3 = 1000` (line 33). -/
def cost_estimate_per_m3 : ℚ := 1000

/-- `government_subsidy_pct = 30` (line 34). -/
def government_subsidy_pct : ℚ := 30

/-- `cost = harvestable * cost_estimate_per_m3` (line 132), with the unit
cost as a parameter (the script instantiates it with the constant). -/
def cost (h unit_cost : ℚ) : ℚ :=
  h * unit_cost

/-- `subsidy = (government_subsidy_pct / 100) * cost` (line 133), with the
percentage as a parameter. -/
def subsidy (pct gross : ℚ) : ℚ :=
  (pct / 100) * gross

/-- `net_cost = cost - subsidy` (line 134). -/
def net_cost (gross sub : ℚ) : ℚ :=
  gross - sub

/-! ## Structure Sizing Calculator — recharge variants (lines 105-117)

The script offers three recharge structures via a radio button and
computes `capacity` in the matching branch; dimensions come from
`st.number_input` widgets with `min_value=0.1`.  No branch computes a
surface area, and no branch validates its dimensions itself. -/

/-- The recharge-structure choice with the dimensions its branch reads
(lines 105-117). -/
inductive RechargeStructure where
  | pit (width depth : ℝ)
  | trench (length width depth : ℝ)
  | shaft (radius depth : ℝ)

/-- `capacity` as computed in each branch: `width * width * depth`
(line 108), `length * width * depth` (line 113),
`math.pi * radius**2 * depth` (line 117). -/
noncomputable def capacity : RechargeStructure → ℝ
  | .pit w d => w * w * d
  | .trench l w d => l * w * d
  | .shaft r d => Real.pi * r ^ 2 * d

/-- The outputs of the structure-sizing block: the script computes and
displays only `capacity` (line 119); no surface area exists for any
recharge variant. -/
structure StructureResult where
  capacityVol : ℝ
  surfaceArea : Option ℝ

/-- The structure-sizing block's result (lines 105-119): capacity from
the selected branch, and no surface-area output. -/
noncomputable def structure_result (s : RechargeStructure) : StructureResult :=
  ⟨capacity s, none⟩

/-- The Structure Sizing Calculator with the failure-signalling interface
the spec describes.  Lines 105-117 perform no dimension validation (the
widgets enforce `min_value=0.1`), so every input — zero or negative
dimensions included — maps to `.ok` of the geometric formula. -/
noncomputable def capacity_compute (s : RechargeStructure) :
    Except CoreError ℝ :=
  .ok (capacity s)

/-! ## Groundwater lookup (lines 28-31, 124-128) -/

/-- `groundwater_depth = {"ANDAMAN & NICOBAR ISLANDS": 10, "WEST BENGAL": 7}`
(lines 28-31), as an association list. -/
def groundwater_depth : List (String × Int) :=
  [("ANDAMAN & NICOBAR ISLANDS", 10), ("WEST BENGAL", 7)]

/-- `depth_gw = groundwater_depth.get(city, None)` (line 124), over an
arbitrary depth table. -/
def depth_gw (table : List (String × Int)) (city : String) : Option Int :=
  table.lookup city

/-- Python truthiness of `depth_gw`: `None` is falsy, and so is the
integer `0`. -/
def truthyDepth : Option Int → Bool
  | none => false
  | some d => d != 0

/-- What the groundwater section reports for a city. -/
inductive GwReport where
  | depth (d : Int)
  | notAvailable
deriving DecidableEq, Repr

/-- Lines 124-128: `if depth_gw:` print the depth `else` print
"Groundwater data not available".  The branch is taken on the truthiness
of the looked-up value, not on key membership. -/
def gw_report (table : List (String × Int)) (city : String) : GwReport :=
  match depth_gw table city with
  | some d => if d != 0 then .depth d else .notAvailable
  | none => .notAvailable

/-! ## Tank variants (variant 2)

The repository's sources contain only the recharge-structure variant; the
tank-sizing variant the spec documents (§4.3, Cuboidal and Cylindrical)
has no code under `src/`. -/

/-- Modelled from the spec: the tank-shape variants of the Structure
Sizing Calculator (spec §4.3), absent from `src/main.py`:
`Cuboidal(L, B, H)` and `Cylindrical(r, h)`. -/
inductive TankSpec where
  | cuboidal (l b h : ℝ)
  | cylindrical (r h : ℝ)

/-- Modelled from the spec: tank capacity (spec §4.3) —
`L·B·H` for cuboidal, `π·r²·h` for cylindrical. -/
noncomputable def tank_capacity : TankSpec → ℝ
  | .cuboidal l b h => l * b * h
  | .cylindrical r h => Real.pi * r ^ 2 * h

/-- Modelled from the spec: open-top tank surface area (spec §4.3) —
`L·B + 2·L·H + 2·B·H` for cuboidal, `π·r² + 2·π·r·h` for cylindrical. -/
noncomputable def tank_surface_area : TankSpec → ℝ
  | .cuboidal l b h => l * b + 2 * l * h + 2 * b * h
  | .cylindrical r h => Real.pi * r ^ 2 + 2 * Real.pi * r * h

/-! ## The spec's averaging window

The spec describes the rolling-average window as "the maximum year present
for that region minus 9, inclusive"; `specWindow` is that description,
written from the spec's words, to be compared with `recent_years` (which
is written from the code's `YEAR > max - 10` filter). -/

/-- The spec's description of the averaging window: the rows whose year
lies in `[maxYear - 9, maxYear]`. -/
def specWindow (cd : List RainfallRecord) : List RainfallRecord :=
  cd.filter (fun r => decide (maxYear cd - 9 ≤ r.year ∧ r.year ≤ maxYear cd))

/-! ## Helper lemmas about `maxYear` -/

lemma foldl_max_le_init (rs : List RainfallRecord) (a : Int) :
    a ≤ rs.foldl (fun m x => max m x.year) a := by
  induction rs generalizing a with
  | nil => exact le_refl a
  | cons y ys ih => exact le_trans (le_max_left a y.year) (ih (max a y.year))

lemma year_le_foldl_max (rs : List RainfallRecord) (a : Int) (x : RainfallRecord)
    (hx : x ∈ rs) : x.year ≤ rs.foldl (fun m x => max m x.year) a := by
  induction rs generalizing a with
  | nil => cases hx
  | cons y ys ih =>
    rcases List.mem_cons.mp hx with h | h
    · subst h
      exact le_trans (le_max_right a x.year) (foldl_max_le_init ys _)
    · exact ih _ h

lemma year_le_maxYear {rows : List RainfallRecord} {r : RainfallRecord}
    (h : r ∈ rows) : r.year ≤ maxYear rows := by
  cases rows with
  | nil => cases h
  | cons y ys =>
    rcases List.mem_cons.mp h with h | h
    · subst h
      exact foldl_max_le_init ys r.year
    · exact year_le_foldl_max ys y.year r h

lemma foldl_max_attained (rs : List RainfallRecord) (a : Int) :
    rs.foldl (fun m x => max m x.year) a = a
    ∨ ∃ x ∈ rs, rs.foldl (fun m x => max m x.year) a = x.year := by
  induction rs generalizing a with
  | nil => exact Or.inl rfl
  | cons y ys ih =>
    rcases ih (max a y.year) with h | ⟨x, hx, hfx⟩
    · rcases max_choice a y.year with hm | hm
      · exact Or.inl (by rw [List.foldl_cons, h, hm])
      · exact Or.inr ⟨y, List.mem_cons_self _ _, by rw [List.foldl_cons, h, hm]⟩
    · exact Or.inr ⟨x, List.mem_cons_of_mem _ hx, by rw [List.foldl_cons]; exact hfx⟩

lemma maxYear_attained {rows : List RainfallRecord} (h : rows ≠ []) :
    ∃ r ∈ rows, r.year = maxYear rows := by
  cases rows with
  | nil => exact absurd rfl h
  | cons y ys =>
    rcases foldl_max_attained ys y.year with hf | ⟨x, hx, hfx⟩
    · exact ⟨y, List.mem_cons_self _ _, hf.symm⟩
    · exact ⟨x, List.mem_cons_of_mem _ hx, hfx.symm⟩

lemma recent_years_eq_specWindow (cd : List RainfallRecord) :
    recent_years cd = specWindow cd := by
  unfold recent_years specWindow
  refine List.filter_congr ?_
  intro r hr
  have hle : r.year ≤ maxYear cd := year_le_maxYear hr
  simp only [decide_eq_decide]
  omega

/-! ## Theorems -/

/-- **C1** (Harvest Calculator postcondition): for rainfall `R ≥ 0`,
first-flush `F ≥ 0`, area `A > 0`, coefficient `C ∈ (0,1]` and efficiency
in `[50,100]`, the effective rainfall equals `max (R - F) 0` (hence is
non-negative and is `0` whenever `F ≥ R`), the potential volume equals
`A·C·effective/1000`, the harvestable volume equals
`potential · (efficiency/100)`, and the litres figure is exactly
`harvestable · 1000`. -/
theorem c1_harvest_postcondition (R F A C e : ℚ)
    (hR : 0 ≤ R) (hF : 0 ≤ F) (hA : 0 < A) (hC0 : 0 < C) (hC1 : C ≤ 1)
    (he1 : 50 ≤ e) (he2 : e ≤ 100) :
    effective_rainfall R F = max (R - F) 0
    ∧ 0 ≤ effective_rainfall R F
    ∧ (R ≤ F → effective_rainfall R F = 0)
    ∧ potential A C (effective_rainfall R F)
        = A * C * effective_rainfall R F / 1000
    ∧ harvestable (potential A C (effective_rainfall R F)) e
        = potential A C (effective_rainfall R F) * (e / 100)
    ∧ harvestable_litres (harvestable (potential A C (effective_rainfall R F)) e)
        = harvestable (potential A C (effective_rainfall R F)) e * 1000 := by
  refine ⟨rfl, le_max_right _ _, ?_, rfl, rfl, rfl⟩
  intro h
  exact max_eq_right (by linarith)

/-- Witness for C1 at the spec's worked example
(`R = 1000`, `F = 2`, `A = 100`, `C = 0.85`, `e = 90`). -/
theorem c1_harvest_postcondition_witness :
    effective_rainfall 1000 2 = max (1000 - 2) 0
    ∧ (0:ℚ) ≤ effective_rainfall 1000 2
    ∧ ((1000:ℚ) ≤ 2 → effective_rainfall 1000 2 = 0)
    ∧ potential 100 (17/20) (effective_rainfall 1000 2)
        = 100 * (17/20) * effective_rainfall 1000 2 / 1000
    ∧ harvestable (potential 100 (17/20) (effective_rainfall 1000 2)) 90
        = potential 100 (17/20) (effective_rainfall 1000 2) * (90 / 100)
    ∧ harvestable_litres
        (harvestable (potential 100 (17/20) (effective_rainfall 1000 2)) 90)
        = harvestable (potential 100 (17/20) (effective_rainfall 1000 2)) 90 * 1000 :=
  c1_harvest_postcondition 1000 2 100 (17/20) 90 (by norm_num) (by norm_num)
    (by norm_num) (by norm_num) (by norm_num) (by norm_num) (by norm_num)

/-- **C4** (Feasibility predicate): the flag is `true` iff the harvestable
volume exceeds `5` m³; in particular it is `false` at exactly `5`. -/
theorem c4_feasibility (h : ℚ) :
    (feasible h = true ↔ 5 < h) ∧ feasible 5 = false := by
  constructor
  · simp [feasible]
  · decide

/-- Witness for C4 at `h = 5` and `h = 6`. -/
theorem c4_feasibility_witness :
    feasible 5 = false ∧ feasible 6 = true :=
  ⟨(c4_feasibility 0).2, (c4_feasibility 6).1.mpr (by norm_num)⟩

/-- **C5** (Cost Estimator): gross = `h · u`, subsidy = `gross · s/100`,
net = `gross − subsidy`, with no internal rounding; at the spec's example
(`h = 76.347`, `u = 1000`, `s = 30`) the exact results are
gross `76347`, subsidy `22904.1`, net `53442.9`. -/
theorem c5_cost_estimator (h u s : ℚ)
    (hh : 0 ≤ h) (hu : 0 ≤ u) (hs0 : 0 ≤ s) (hs1 : s ≤ 100) :
    cost h u = h * u
    ∧ subsidy s (cost h u) = cost h u * s / 100
    ∧ net_cost (cost h u) (subsidy s (cost h u))
        = cost h u - subsidy s (cost h u)
    ∧ cost (76347/1000) 1000 = 76347
    ∧ subsidy 30 76347 = 229041/10
    ∧ net_cost 76347 (229041/10) = 534429/10 := by
  refine ⟨rfl, ?_, rfl, by norm_num [cost], by norm_num [subsidy], by norm_num [net_cost]⟩
  unfold subsidy
  ring

/-- Witness for C5 at the spec's example values. -/
theorem c5_cost_estimator_witness :
    cost (76347/1000) 1000 = (76347/1000) * 1000
    ∧ subsidy 30 (cost (76347/1000) 1000) = cost (76347/1000) 1000 * 30 / 100
    ∧ net_cost (cost (76347/1000) 1000) (subsidy 30 (cost (76347/1000) 1000))
        = cost (76347/1000) 1000 - subsidy 30 (cost (76347/1000) 1000)
    ∧ cost (76347/1000) 1000 = 76347
    ∧ subsidy 30 76347 = 229041/10
    ∧ net_cost 76347 (229041/10) = 534429/10 :=
  c5_cost_estimator (76347/1000) 1000 30 (by norm_num) (by norm_num)
    (by norm_num) (by norm_num)

/-- **C3** (recharge variants): for strictly positive dimensions,
`Pit(w, d)` has capacity `w² · d`, `Trench(l, w, d)` has capacity
`l · w · d`, `Shaft(r, d)` has capacity `π · r² · d`, and none of the
three variants produces a surface-area output. -/
theorem c3_recharge_sizing (w d l r : ℝ)
    (hw : 0 < w) (hd : 0 < d) (hl : 0 < l) (hr : 0 < r) :
    capacity (.pit w d) = w ^ 2 * d
    ∧ capacity (.trench l w d) = l * w * d
    ∧ capacity (.shaft r d) = Real.pi * r ^ 2 * d
    ∧ (structure_result (.pit w d)).surfaceArea = none
    ∧ (structure_result (.trench l w d)).surfaceArea = none
    ∧ (structure_result (.shaft r d)).surfaceArea = none := by
  refine ⟨?_, rfl, rfl, rfl, rfl, rfl⟩
  show w * w * d = w ^ 2 * d
  ring

/-- Witness for C3 at `w = 1`, `d = 2`, `l = 3`, `r = 1`. -/
theorem c3_recharge_sizing_witness :
    capacity (.pit 1 2) = 1 ^ 2 * 2
    ∧ capacity (.trench 3 1 2) = 3 * 1 * 2
    ∧ capacity (.shaft 1 2) = Real.pi * 1 ^ 2 * 2
    ∧ (structure_result (.pit 1 2)).surfaceArea = none
    ∧ (structure_result (.trench 3 1 2)).surfaceArea = none
    ∧ (structure_result (.shaft 1 2)).surfaceArea = none :=
  c3_recharge_sizing 1 2 3 1 (by norm_num) (by norm_num) (by norm_num) (by norm_num)

/-- **C9** (tank variants, modelled from the spec — variant 2 has no code
under `src/`): for strictly positive dimensions, `Cuboidal(L, B, H)` has
capacity `L·B·H` and open-top surface area `L·B + 2·L·H + 2·B·H`, and
`Cylindrical(r, h)` has capacity `π·r²·h` and open-top surface area
`π·r² + 2·π·r·h`; in particular `Cuboidal(2, 2, 2)` yields capacity `8`
and surface area `20`. -/
theorem c9_tank_sizing (l b h r hh : ℝ)
    (hl : 0 < l) (hb : 0 < b) (hht : 0 < h) (hr : 0 < r) (hhh : 0 < hh) :
    tank_capacity (.cuboidal l b h) = l * b * h
    ∧ tank_surface_area (.cuboidal l b h) = l * b + 2 * l * h + 2 * b * h
    ∧ tank_capacity (.cylindrical r hh) = Real.pi * r ^ 2 * hh
    ∧ tank_surface_area (.cylindrical r hh) = Real.pi * r ^ 2 + 2 * Real.pi * r * hh
    ∧ tank_capacity (.cuboidal 2 2 2) = 8
    ∧ tank_surface_area (.cuboidal 2 2 2) = 20 := by
  refine ⟨rfl, rfl, rfl, rfl, ?_, ?_⟩
  · show (2:ℝ) * 2 * 2 = 8
    norm_num
  · show (2:ℝ) * 2 + 2 * 2 * 2 + 2 * 2 * 2 = 20
    norm_num

/-- Witness for C9 at `L = B = H = 2`, `r = 1`, `h = 2`. -/
theorem c9_tank_sizing_witness :
    tank_capacity (.cuboidal 2 2 2) = 2 * 2 * 2
    ∧ tank_surface_area (.cuboidal 2 2 2) = 2 * 2 + 2 * 2 * 2 + 2 * 2 * 2
    ∧ tank_capacity (.cylindrical 1 2) = Real.pi * 1 ^ 2 * 2
    ∧ tank_surface_area (.cylindrical 1 2) = Real.pi * 1 ^ 2 + 2 * Real.pi * 1 * 2
    ∧ tank_capacity (.cuboidal 2 2 2) = 8
    ∧ tank_surface_area (.cuboidal 2 2 2) = 20 :=
  c9_tank_sizing 2 2 2 1 2 (by norm_num) (by norm_num) (by norm_num)
    (by norm_num) (by norm_num)

/-- **C10** (groundwater truthiness): the report carries a numeric depth
iff the lookup finds a record whose depth is nonzero; a recorded depth of
`0` is reported as "not available", exactly like an absent record, because
the branch tests the truthiness of the looked-up value. -/
theorem c10_groundwater_truthiness (table : List (String × Int)) (city : String) :
    (∀ d : Int, gw_report table city = .depth d
        ↔ depth_gw table city = some d ∧ d ≠ 0)
    ∧ (depth_gw table city = some 0 → gw_report table city = .notAvailable)
    ∧ (depth_gw table city = none → gw_report table city = .notAvailable) := by
  refine ⟨?_, ?_, ?_⟩
  · intro d
    unfold gw_report
    cases hd : depth_gw table city with
    | none => simp
    | some v =>
      by_cases hv : v = 0
      · subst hv
        simp only [bne_self_eq_false, Bool.false_eq_true, if_false,
          Option.some.injEq]
        constructor
        · intro hcontr
          cases hcontr
        · rintro ⟨rfl, hd0⟩
          exact absurd rfl hd0
      · simp only [hv, bne_iff_ne, ne_eq, not_false_eq_true, if_true,
          Option.some.injEq, GwReport.depth.injEq]
        constructor
        · rintro rfl
          exact ⟨rfl, hv⟩
        · rintro ⟨rfl, _⟩
          rfl
  · intro h
    unfold gw_report
    rw [h]
    simp
  · intro h
    unfold gw_report
    rw [h]

/-- Witness for C10: in a table recording depth `0` for `"X"`, the report
for `"X"` is "not available", indistinguishable from the report for the
absent key `"Y"`. -/
theorem c10_groundwater_truthiness_witness :
    gw_report [("X", 0)] "X" = .notAvailable
    ∧ gw_report [("X", 0)] "Y" = .notAvailable :=
  ⟨(c10_groundwater_truthiness [("X", 0)] "X").2.1 (by decide),
   (c10_groundwater_truthiness [("X", 0)] "Y").2.2 (by decide)⟩

/-- **C6 counterexample**: called directly with the negative area `-1`
(and in-range coefficient `1/2`), the harvest computation of lines 87-90
does not fail with `InvalidInput`: it returns the arithmetic result, whose
harvestable volume is the negative number `-4491/10000`. -/
theorem c6_counterexample :
    harvest_compute 1000 (-1) (1/2) 2 90 ≠ .error .invalidInput
    ∧ harvest_compute 1000 (-1) (1/2) 2 90
        = .ok ⟨998, -499/1000, -4491/10000, -4491/10⟩ := by
  constructor
  · intro hcontr
    cases hcontr
  · show Except.ok (⟨_, _, _, _⟩ : HarvestResult) = _
    norm_num [harvest_compute, effective_rainfall, potential, harvestable,
      harvestable_litres]

/-- **C6 amended**: the harvest computation performs no input validation;
even with a negative area or a coefficient outside `(0,1]` it returns the
arithmetic result `A·C·max(R−F,0)/1000·(e/100)` (the presentation layer
alone constrains the inputs). -/
theorem c6_no_validation (R A C F e : ℚ)
    (h : A < 0 ∨ C ≤ 0 ∨ 1 < C) :
    harvest_compute R A C F e
      = .ok ⟨max (R - F) 0,
             A * C * max (R - F) 0 / 1000,
             A * C * max (R - F) 0 / 1000 * (e / 100),
             A * C * max (R - F) 0 / 1000 * (e / 100) * 1000⟩ :=
  rfl

/-- Witness for the amended C6 at `R = 1000`, `A = -1`, `C = 1/2`,
`F = 2`, `e = 90`. -/
theorem c6_no_validation_witness :
    harvest_compute 1000 (-1) (1/2) 2 90
      = .ok ⟨max ((1000:ℚ) - 2) 0,
             (-1) * (1/2) * max ((1000:ℚ) - 2) 0 / 1000,
             (-1) * (1/2) * max ((1000:ℚ) - 2) 0 / 1000 * (90 / 100),
             (-1) * (1/2) * max ((1000:ℚ) - 2) 0 / 1000 * (90 / 100) * 1000⟩ :=
  c6_no_validation 1000 (-1) (1/2) 2 90 (Or.inl (by norm_num))

/-- **C7 counterexample**: with the non-positive dimensions `width = 0`
(pit) and `length = -1` (trench), the structure-sizing code of
lines 105-117 does not fail with `InvalidInput`: it returns the geometric
formula's value. -/
theorem c7_counterexample :
    capacity_compute (.pit 0 1) ≠ .error .invalidInput
    ∧ capacity_compute (.pit 0 1) = .ok 0
    ∧ capacity_compute (.trench (-1) 1 1) = .ok (-1) := by
  refine ⟨?_, ?_, ?_⟩
  · intro hcontr
    cases hcontr
  · show Except.ok ((0:ℝ) * 0 * 1) = _
    norm_num
  · show Except.ok ((-1:ℝ) * 1 * 1) = _
    norm_num

/-- **C7 amended**: the structure-sizing code performs no dimension
validation; even when a dimension is zero or negative it returns the
capacity formula of the selected variant rather than failing (the widgets
alone enforce `min_value = 0.1`). -/
theorem c7_no_validation (w d l r : ℝ) (h : w ≤ 0 ∨ d ≤ 0) :
    capacity_compute (.pit w d) = .ok (w * w * d)
    ∧ capacity_compute (.trench l w d) = .ok (l * w * d)
    ∧ capacity_compute (.shaft r d) = .ok (Real.pi * r ^ 2 * d) :=
  ⟨rfl, rfl, rfl⟩

/-- Witness for the amended C7 at `w = 0`, `d = 1`, `l = 2`, `r = 3`. -/
theorem c7_no_validation_witness :
    capacity_compute (.pit 0 1) = .ok (0 * 0 * 1)
    ∧ capacity_compute (.trench 2 0 1) = .ok (2 * 0 * 1)
    ∧ capacity_compute (.shaft 3 1) = .ok (Real.pi * 3 ^ 2 * 1) :=
  c7_no_validation 0 1 2 3 (Or.inl (by norm_num))

/-- **C8 counterexample**: for the identifier `"B"`, absent from a dataset
holding only subdivision `"A"`, the selector of line 52 does not fail with
`NotFound`: it returns the empty selection. -/
theorem c8_counterexample :
    region_select [⟨"A", 2000, 5, none, none, none, none⟩] "B" ≠ .error .notFound
    ∧ region_select [⟨"A", 2000, 5, none, none, none, none⟩] "B" = .ok [] := by
  constructor
  · intro hcontr
    cases hcontr
  · rfl

/-- **C8 amended**: the Region Selector never fails; it returns the list
of rows whose subdivision equals the identifier — all matching records
when the identifier is present, and the empty selection (not a `NotFound`
failure) when it is absent. -/
theorem c8_region_select (df : List RainfallRecord) (city : String) :
    region_select df city = .ok (city_data df city)
    ∧ (∀ rec, rec ∈ city_data df city ↔ rec ∈ df ∧ rec.subdivision = city)
    ∧ ((∀ rec ∈ df, rec.subdivision ≠ city) → region_select df city = .ok []) := by
  refine ⟨rfl, ?_, ?_⟩
  · intro rec
    simp [city_data, List.mem_filter]
  · intro hall
    unfold region_select city_data
    rw [List.filter_eq_nil_iff.mpr]
    intro rec hrec
    simpa using hall rec hrec

/-- Witness for the amended C8: a present identifier returns its record,
an absent one returns the empty selection. -/
theorem c8_region_select_witness :
    (⟨"A", 2000, 5, none, none, none, none⟩ : RainfallRecord)
        ∈ city_data [⟨"A", 2000, 5, none, none, none, none⟩] "A"
    ∧ region_select [⟨"A", 2000, 5, none, none, none, none⟩] "Z" = .ok [] :=
  ⟨((c8_region_select [⟨"A", 2000, 5, none, none, none, none⟩] "A").2.1 _).mpr
      ⟨List.mem_cons_self _ _, rfl⟩,
   (c8_region_select [⟨"A", 2000, 5, none, none, none, none⟩] "Z").2.2
      (by decide)⟩

/-- **C2 counterexample**: a region with the two (non-consecutive) years
`2000` and `2015` has fewer than 10 years, yet the code's
`YEAR > max - 10` filter keeps only the 2015 row: not all available years
are used, and the average is that of the single kept row (`20`), not of
both rows (`15`). -/
theorem c2_counterexample :
    (city_data [⟨"R", 2000, 10, none, none, none, none⟩,
                ⟨"R", 2015, 20, none, none, none, none⟩] "R").length = 2
    ∧ recent_years (city_data [⟨"R", 2000, 10, none, none, none, none⟩,
                               ⟨"R", 2015, 20, none, none, none, none⟩] "R")
        ≠ city_data [⟨"R", 2000, 10, none, none, none, none⟩,
                     ⟨"R", 2015, 20, none, none, none, none⟩] "R"
    ∧ avg_annual_rainfall (city_data [⟨"R", 2000, 10, none, none, none, none⟩,
                                      ⟨"R", 2015, 20, none, none, none, none⟩] "R")
        = some 20 := by
  refine ⟨by decide, by decide, ?_⟩
  show seriesMean _ = _
  norm_num [city_data, recent_years, maxYear, seriesMean]

/-- **C2 amended** (10-year rolling average): for every region present in
the dataset, the annual and each seasonal average are arithmetic means
over exactly the rows whose year lies in
`[maxYear(region) - 9, maxYear(region)]`; when every year recorded for the
region lies within 9 years of its maximum (in particular, up to 10
consecutive years), all available rows are used, with no error and no
zero-padding; a missing seasonal value is excluded from its season's mean
rather than counted as zero. -/
theorem c2_rolling_window (df : List RainfallRecord) (region : String)
    (hne : city_data df region ≠ []) :
    recent_years (city_data df region) = specWindow (city_data df region)
    ∧ avg_annual_rainfall (city_data df region)
        = seriesMean ((specWindow (city_data df region)).map (·.annual))
    ∧ (∀ f : RainfallRecord → Option ℚ,
        avg_seasonal_rainfall f (city_data df region)
          = seriesMean ((specWindow (city_data df region)).filterMap f))
    ∧ ((∀ r ∈ city_data df region,
          maxYear (city_data df region) - 9 ≤ r.year) →
        recent_years (city_data df region) = city_data df region)
    ∧ (∃ q, avg_annual_rainfall (city_data df region) = some q) := by
  refine ⟨recent_years_eq_specWindow _, ?_, ?_, ?_, ?_⟩
  · unfold avg_annual_rainfall
    rw [recent_years_eq_specWindow]
  · intro f
    unfold avg_seasonal_rainfall
    rw [recent_years_eq_specWindow]
  · intro hall
    unfold recent_years
    apply List.filter_eq_self.mpr
    intro r hr
    have h1 := hall r hr
    have h2 := year_le_maxYear hr
    simp only [decide_eq_true_eq]
    omega
  · obtain ⟨r, hr, hry⟩ := maxYear_attained hne
    have hmem : r ∈ recent_years (city_data df region) := by
      unfold recent_years
      refine List.mem_filter.mpr ⟨hr, ?_⟩
      simp only [decide_eq_true_eq]
      omega
    have hlen : ((recent_years (city_data df region)).map (·.annual)).length ≠ 0 := by
      rw [List.length_map]
      exact Nat.pos_iff_ne_zero.mp (List.length_pos.mpr (List.ne_nil_of_mem hmem))
    have hsome : avg_annual_rainfall (city_data df region)
        = some (((recent_years (city_data df region)).map (·.annual)).sum
            / (((recent_years (city_data df region)).map (·.annual)).length : ℚ)) := by
      unfold avg_annual_rainfall seriesMean
      rw [if_neg hlen]
    exact ⟨_, hsome⟩

/-- Witness for the amended C2 on a one-row region. -/
theorem c2_rolling_window_witness :
    recent_years (city_data [⟨"R", 2015, 12, some 1, none, some 3, some 4⟩] "R")
      = specWindow (city_data [⟨"R", 2015, 12, some 1, none, some 3, some 4⟩] "R")
    ∧ avg_annual_rainfall (city_data [⟨"R", 2015, 12, some 1, none, some 3, some 4⟩] "R")
      = seriesMean ((specWindow (city_data [⟨"R", 2015, 12, some 1, none, some 3, some 4⟩] "R")).map (·.annual)) :=
  ⟨(c2_rolling_window [⟨"R", 2015, 12, some 1, none, some 3, some 4⟩] "R"
      (by decide)).1,
   (c2_rolling_window [⟨"R", 2015, 12, some 1, none, some 3, some 4⟩] "R"
      (by decide)).2.1⟩

end RTWRH
